import Mathlib

set_option maxRecDepth 10000

/-!
Shallow embedding of
`src/aks-preview/azext_aks_preview/azurecontainerstorage/_validators.py`
from the `azure-cli-extensions` repository: command-line argument
validation for the Azure Container Storage feature.

Modelling conventions:
* Python strings are `String` (sequences of code points); `None`-able
  arguments are `Option String`; boolean flags are `Bool`.
* A call to a validator is modelled by a total function into `Outcome`:
  a normal return (carrying the warnings logged on the way), one of the
  three typed CLI errors (carrying its exact message), or an untyped
  Python runtime error (`TypeError`, `ValueError`, `IndexError`).
* The regular expressions of the source are embedded as executable
  recognisers of the same languages; the character classes `\d` and
  `[a-z]`/`[a-z0-9]` are modelled over ASCII.
* The numeric quantity of a `--storage-pool-size` value is modelled as
  an exact rational; CPython parses it to a binary double, which agrees
  with the exact comparison against the `1024`/`1` thresholds except
  for decimal numerals within half an ulp of a threshold (at least
  seventeen significant digits).
-/

namespace AzureContainerStorage

/-- Modelled from the spec: the storage-pool-type constant `azureDisk`
of the constants module `_consts.py`, which is not among the sources. -/
def CONST_STORAGE_POOL_TYPE_AZURE_DISK : String := "azureDisk"

/-- Modelled from the spec: the storage-pool-type constant
`ephemeralDisk` of the constants module `_consts.py`. -/
def CONST_STORAGE_POOL_TYPE_EPHEMERAL_DISK : String := "ephemeralDisk"

/-- Modelled from the spec: the storage-pool-type constant `elasticSan`
of the constants module `_consts.py`. -/
def CONST_STORAGE_POOL_TYPE_ELASTIC_SAN : String := "elasticSan"

/-- Modelled from the spec: the sku constant `Premium_LRS` of the
constants module `_consts.py`. -/
def CONST_STORAGE_POOL_SKU_PREMIUM_LRS : String := "Premium_LRS"

/-- Modelled from the spec: the sku constant `Premium_ZRS` of the
constants module `_consts.py`. -/
def CONST_STORAGE_POOL_SKU_PREMIUM_ZRS : String := "Premium_ZRS"

/-- Modelled from the spec: the storage-pool-option constant for the
temp-storage (SSD) option of the constants module `_consts.py`. -/
def CONST_STORAGE_POOL_OPTION_SSD : String := "SSD"

/-- `elastic_san_supported_skus` from the source. -/
def elastic_san_supported_skus : List String :=
  [CONST_STORAGE_POOL_SKU_PREMIUM_LRS, CONST_STORAGE_POOL_SKU_PREMIUM_ZRS]

/-! ## Character classes and regular-expression languages -/

/-- The class `\d` (over ASCII). -/
def isDigitChar (c : Char) : Bool := '0' ≤ c && c ≤ '9'

/-- The class `[a-z]`. -/
def isLowerChar (c : Char) : Bool := 'a' ≤ c && c ≤ 'z'

/-- The class `[a-z0-9]`. -/
def isLowerAlnum (c : Char) : Bool := isLowerChar c || isDigitChar c

/-- Python `str.split(sep)` on code points: the groups of characters
between occurrences of `sep`.  Always returns at least one (possibly
empty) group. -/
def splitSep (sep : Char) : List Char → List (List Char)
  | [] => [[]]
  | c :: rest =>
    match splitSep sep rest with
    | [] => [[c]]
    | g :: gs => if c = sep then [] :: g :: gs else (c :: g) :: gs

/-- One label of the storage-pool-name pattern,
`[a-z0-9]([-a-z0-9]*[a-z0-9])?`: nonempty, first and last character
lowercase alphanumeric, interior characters lowercase alphanumeric or
`-`. -/
def isNameLabel : List Char → Bool
  | [] => false
  | c :: rest =>
    isLowerAlnum c &&
      match rest.getLast? with
      | none => true
      | some d => rest.all (fun e => isLowerAlnum e || e = '-') && isLowerAlnum d

/-- `re.fullmatch` of the storage-pool-name pattern
`[a-z0-9]([-a-z0-9]*[a-z0-9])?(\.[a-z0-9]([-a-z0-9]*[a-z0-9])?)*`:
a nonempty dot-separated sequence of labels. -/
def matchesPoolNamePattern (s : String) : Bool :=
  (splitSep '.' s.data).all isNameLabel

/-- One segment of the nodepool-list pattern, `[a-z][a-z0-9]*`. -/
def isNodepoolSegment : List Char → Bool
  | [] => false
  | c :: rest => isLowerChar c && rest.all isLowerAlnum

/-- `re.fullmatch` of the nodepool-list pattern
`^[a-z][a-z0-9]*(?:,[a-z][a-z0-9]*)*$`: a nonempty comma-separated
sequence of segments.  (Under `re.fullmatch` the anchors are inert and
the whole string must be consumed, so the match is strict.) -/
def matchesNodepoolPattern (s : String) : Bool :=
  (splitSep ',' s.data).all isNodepoolSegment

/-- The language `\d+(\.\d+)?`: a decimal numeral, optionally with a
fractional part. -/
def isDecimalNumeral (l : List Char) : Bool :=
  match splitSep '.' l with
  | [a] => !a.isEmpty && a.all isDigitChar
  | [a, b] => !a.isEmpty && a.all isDigitChar && !b.isEmpty && b.all isDigitChar
  | _ => false

/-- Python `s[:-2]` on code points. -/
def dropLastTwo (l : List Char) : List Char := l.take (l.length - 2)

/-- Python `s[-2:]` on code points. -/
def takeLastTwo (l : List Char) : List Char := l.drop (l.length - 2)

/-- The language `\d+(\.\d+)?[GT]i` matched against the whole string:
a decimal numeral directly followed by the two-character unit `Gi` or
`Ti`. -/
def matchesSizeStrict (l : List Char) : Bool :=
  isDecimalNumeral (dropLastTwo l) &&
    (takeLastTwo l = ['G', 'i'] || takeLastTwo l = ['T', 'i'])

/-- `re.match(r'^\d+(\.\d+)?[GT]i$', s) is not None`.  In Python, `$`
also matches just before a newline that ends the string, so in addition
to the strict language one trailing `'\n'` is tolerated. -/
def matchesSizePython (l : List Char) : Bool :=
  matchesSizeStrict l ||
    (l.getLast? = some '\n' && matchesSizeStrict l.dropLast)

/-- The natural number denoted by a list of ASCII digits (most
significant first). -/
def natOfDigits (l : List Char) : Nat :=
  l.foldl (fun acc c => 10 * acc + (c.toNat - 48)) 0

/-- Python `float(s)` restricted to the argument shapes the validator
can produce (the prefix `s[:-2]` of a size string accepted by the size
pattern): the exact rational value of a decimal numeral `\d+(\.\d+)?`,
and `none` — a `ValueError` — on anything else.  CPython rounds the
value to a binary double; here the value is kept exact. -/
def pyFloat? (l : List Char) : Option ℚ :=
  match splitSep '.' l with
  | [a] =>
    if !a.isEmpty && a.all isDigitChar then some (natOfDigits a : ℚ) else none
  | [a, b] =>
    if !a.isEmpty && a.all isDigitChar && !b.isEmpty && b.all isDigitChar then
      some ((natOfDigits a : ℚ) + (natOfDigits b : ℚ) / (10 : ℚ) ^ b.length)
    else none
  | _ => none

/-! ## Outcomes -/

/-- The result of one call into the validator module: a normal return
carrying the warnings logged on the way, one of the three typed CLI
errors carrying its message, or an untyped Python runtime error. -/
inductive Outcome where
  | ok (warnings : List String)
  | mutuallyExclusiveArgumentError (msg : String)
  | invalidArgumentValueError (msg : String)
  | argumentUsageError (msg : String)
  | pyTypeError
  | pyValueError
  | pyIndexError
deriving DecidableEq, Repr

/-! ## Error and warning message texts (transcribed from the source) -/

def enableDisableConflictMsg : String :=
  "Conflicting flags. Cannot set --enable-azure-container-storage and --disable-azure-container-storage together."

def disableNotInstalledMsg : String :=
  "Invalid usage of --disable-azure-container-storage. Azure Container Storage is not enabled on the cluster. Aborting disabling of Azure Container Storage."

/-- The common shape of the five disable-path conflict messages. -/
def disableConflictMsg (flag : String) : String :=
  "Conflicting flags. Cannot define " ++ flag ++ " value when --disable-azure-container-storage is set."

def enableAlreadyInstalledMsg : String :=
  "Invalid usage of --enable-azure-container-storage. Azure Container Storage is already enabled on the cluster. Aborting installation of Azure Container Storage."

def poolNameInvalidMsg : String :=
  "Invalid --storage-pool-name value. Accepted values are lowercase alphanumeric characters, \x27-\x27 or \x27.\x27, and must start and end with an alphanumeric character."

def skuEphemeralMsg : String :=
  "Cannot set --storage-pool-sku when --enable-azure-container-storage is ephemeralDisk."

def skuElasticSanMsg : String :=
  "Invalid --storage-pool-sku value. Supported value for --storage-pool-sku are "
    ++ String.intercalate ", " elastic_san_supported_skus
    ++ " when --enable-azure-container-storage is set to elasticSan."

def optionNotEphemeralMsg : String :=
  "Cannot set --storage-pool-option when --enable-azure-container-storage is not ephemeralDisk."

def optionSsdMsg : String :=
  "--storage-pool-option Temp storage (SSD) currently not supported."

def sizeFormatMsg : String :=
  "Value for --storage-pool-size should be defined with size followed by Gi or Ti e.g. 512Gi or 2Ti."

def sizeElasticSanMinMsg : String :=
  "Value for --storage-pool-size must be at least 1Ti when --enable-azure-container-storage is elasticSan."

def ephemeralSizeWarning : String :=
  "Storage pools using Ephemeral disk use all capacity available on the local device.  --storage-pool-size will be ignored."

def nodepoolFormatMsg : String :=
  "Invalid --azure-container-storage-nodepools value. Accepted value is a comma separated string of valid nodepool names without any spaces.\nA valid nodepool name may only contain lowercase alphanumeric characters and must begin with a lowercase letter."

def nodepoolNotFoundManyMsg (nodepool : String) (agentpool_details : List String) : String :=
  "Nodepool: " ++ nodepool
    ++ " not found. Please provide a comma separated string of existing nodepool names in --azure-container-storage-nodepools.\nNodepools available in the cluster are: "
    ++ String.intercalate ", " agentpool_details
    ++ ".\nAborting installation of Azure Container Storage."

def nodepoolNotFoundOneMsg (nodepool agentpool : String) : String :=
  "Nodepool: " ++ nodepool
    ++ " not found. Please provide a comma separated string of existing nodepool names in --azure-container-storage-nodepools.\nNodepool available in the cluster is: "
    ++ agentpool
    ++ ".\nAborting installation of Azure Container Storage."

/-! ## The validators -/

/-- `nodepool_names.split(',')` as a list of strings. -/
def nodepoolStrings (s : String) : List String :=
  (splitSep ',' s.data).map fun g => String.mk g

/-- `_validate_nodepool_names(nodepool_names, agentpool_details)`.
A `None` first argument makes `re.fullmatch` raise a `TypeError`; a
missing nodepool combined with an empty `agentpool_details` makes the
subscript `agentpool_details[0]` raise an `IndexError`. -/
def _validate_nodepool_names (nodepool_names : Option String)
    (agentpool_details : List String) : Outcome :=
  match nodepool_names with
  | none => Outcome.pyTypeError
  | some s =>
    if matchesNodepoolPattern s then
      match (nodepoolStrings s).find? (fun nodepool => !agentpool_details.contains nodepool) with
      | none => Outcome.ok []
      | some nodepool =>
        if 1 < agentpool_details.length then
          Outcome.invalidArgumentValueError (nodepoolNotFoundManyMsg nodepool agentpool_details)
        else
          match agentpool_details with
          | [] => Outcome.pyIndexError
          | a :: _ => Outcome.invalidArgumentValueError (nodepoolNotFoundOneMsg nodepool a)
    else Outcome.invalidArgumentValueError nodepoolFormatMsg

/-- The `storage_pool_size` block of
`_validate_enable_azure_container_storage_params` (source lines
166-192).  The quantity `float(storage_pool_size[:-2])` is computed
before the unit `storage_pool_size[-2:]` is inspected, exactly as in
the source. -/
def enableSizeCheck (storage_pool_type : String)
    (storage_pool_size : Option String) : Outcome :=
  match storage_pool_size with
  | none => Outcome.ok []
  | some s =>
    if matchesSizePython s.data then
      if storage_pool_type = CONST_STORAGE_POOL_TYPE_ELASTIC_SAN then
        match pyFloat? (dropLastTwo s.data) with
        | none => Outcome.pyValueError
        | some pool_size_qty =>
          if (takeLastTwo s.data = ['G', 'i'] ∧ pool_size_qty < 1024)
              ∨ (takeLastTwo s.data = ['T', 'i'] ∧ pool_size_qty < 1) then
            Outcome.argumentUsageError sizeElasticSanMinMsg
          else Outcome.ok []
      else if storage_pool_type = CONST_STORAGE_POOL_TYPE_EPHEMERAL_DISK then
        Outcome.ok [ephemeralSizeWarning]
      else Outcome.ok []
    else Outcome.argumentUsageError sizeFormatMsg

/-- The `storage_pool_option` block of
`_validate_enable_azure_container_storage_params` (source lines
156-164), continuing with the size block. -/
def enableOptionCheck (storage_pool_type : String)
    (storage_pool_option storage_pool_size : Option String) : Outcome :=
  if storage_pool_type ≠ CONST_STORAGE_POOL_TYPE_EPHEMERAL_DISK
      ∧ storage_pool_option.isSome then
    Outcome.argumentUsageError optionNotEphemeralMsg
  else if storage_pool_type = CONST_STORAGE_POOL_TYPE_EPHEMERAL_DISK
      ∧ storage_pool_option = some CONST_STORAGE_POOL_OPTION_SSD then
    Outcome.argumentUsageError optionSsdMsg
  else enableSizeCheck storage_pool_type storage_pool_size

/-- The `storage_pool_sku` block of
`_validate_enable_azure_container_storage_params` (source lines
143-154), continuing with the option and size blocks. -/
def enableSkuCheck (storage_pool_type : String)
    (storage_pool_sku storage_pool_option storage_pool_size : Option String) : Outcome :=
  match storage_pool_sku with
  | none => enableOptionCheck storage_pool_type storage_pool_option storage_pool_size
  | some sku =>
    if storage_pool_type = CONST_STORAGE_POOL_TYPE_EPHEMERAL_DISK then
      Outcome.argumentUsageError skuEphemeralMsg
    else if storage_pool_type = CONST_STORAGE_POOL_TYPE_ELASTIC_SAN
        ∧ ¬ elastic_san_supported_skus.contains sku then
      Outcome.argumentUsageError skuElasticSanMsg
    else enableOptionCheck storage_pool_type storage_pool_option storage_pool_size

/-- `_validate_enable_azure_container_storage_params(...)` (source
lines 119-192). -/
def _validate_enable_azure_container_storage_params
    (storage_pool_name : Option String) (storage_pool_type : String)
    (storage_pool_sku storage_pool_option storage_pool_size : Option String)
    (is_extension_installed : Bool) : Outcome :=
  if is_extension_installed then
    Outcome.invalidArgumentValueError enableAlreadyInstalledMsg
  else
    match storage_pool_name with
    | some name =>
      if matchesPoolNamePattern name then
        enableSkuCheck storage_pool_type storage_pool_sku storage_pool_option storage_pool_size
      else Outcome.invalidArgumentValueError poolNameInvalidMsg
    | none =>
      enableSkuCheck storage_pool_type storage_pool_sku storage_pool_option storage_pool_size

/-- `_validate_disable_azure_container_storage_params(...)` (source
lines 73-116); the checks run in the source's order: installation
state, name, sku, size, option, nodepool list. -/
def _validate_disable_azure_container_storage_params
    (storage_pool_name storage_pool_sku storage_pool_option storage_pool_size
      nodepool_list : Option String)
    (is_extension_installed : Bool) : Outcome :=
  if ¬ is_extension_installed then
    Outcome.invalidArgumentValueError disableNotInstalledMsg
  else if storage_pool_name.isSome then
    Outcome.mutuallyExclusiveArgumentError (disableConflictMsg "--storage-pool-name")
  else if storage_pool_sku.isSome then
    Outcome.mutuallyExclusiveArgumentError (disableConflictMsg "--storage-pool-sku")
  else if storage_pool_size.isSome then
    Outcome.mutuallyExclusiveArgumentError (disableConflictMsg "--storage-pool-size")
  else if storage_pool_option.isSome then
    Outcome.mutuallyExclusiveArgumentError (disableConflictMsg "--storage-pool-option")
  else if nodepool_list.isSome then
    Outcome.mutuallyExclusiveArgumentError (disableConflictMsg "--azure-container-storage-nodepools")
  else Outcome.ok []

/-- `validate_azure_container_storage_params(...)` (source lines
32-70), the top-level entry point. -/
def validate_azure_container_storage_params
    (enable_azure_container_storage disable_azure_container_storage : Bool)
    (storage_pool_name : Option String) (storage_pool_type : String)
    (storage_pool_sku storage_pool_option storage_pool_size
      nodepool_list : Option String)
    (agentpool_names : List String) (is_extension_installed : Bool) : Outcome :=
  if enable_azure_container_storage && disable_azure_container_storage then
    Outcome.mutuallyExclusiveArgumentError enableDisableConflictMsg
  else if disable_azure_container_storage then
    _validate_disable_azure_container_storage_params storage_pool_name
      storage_pool_sku storage_pool_option storage_pool_size nodepool_list
      is_extension_installed
  else if enable_azure_container_storage then
    match _validate_enable_azure_container_storage_params storage_pool_name
        storage_pool_type storage_pool_sku storage_pool_option storage_pool_size
        is_extension_installed with
    | Outcome.ok ws =>
      match _validate_nodepool_names nodepool_list agentpool_names with
      | Outcome.ok ws2 => Outcome.ok (ws ++ ws2)
      | e => e
    | e => e
  else Outcome.ok []

/-! ## Helper lemmas -/

/-- `splitSep` always produces at least one group. -/
theorem splitSep_ne_nil (sep : Char) (l : List Char) : splitSep sep l ≠ [] := by
  cases l with
  | nil => simp [splitSep]
  | cons c rest =>
    simp only [splitSep]
    cases h : splitSep sep rest with
    | nil => simp
    | cons g gs => by_cases hc : c = sep <;> simp [hc]

/-- With no name, no sku and no option supplied and the extension not
installed, the enable-path validator reduces to its size block. -/
theorem enable_params_neutral (storage_pool_type : String)
    (storage_pool_size : Option String) :
    _validate_enable_azure_container_storage_params none storage_pool_type none
        none storage_pool_size false
      = enableSizeCheck storage_pool_type storage_pool_size := by
  simp [_validate_enable_azure_container_storage_params, enableSkuCheck,
    enableOptionCheck]

/-! ## The claims -/

/-- Claim C1: on the enable path with a non-`None` storage pool size,
a size string that fails the pattern of `re.match(r'^\d+(\.\d+)?[GT]i$', ...)`
raises `ArgumentUsageError`; a matching size with pool type `elasticSan`
raises `ArgumentUsageError` exactly when the parsed quantity is below
1024 with unit `Gi` or below 1 with unit `Ti` (so `500Gi` is rejected
while `1024Gi` and `1Ti` are accepted); a matching size with pool type
`ephemeralDisk` raises no error and only logs a warning; a matching
size with any other pool type raises no error. -/
theorem claim1_enable_size_rules (storage_pool_type s : String) :
    (matchesSizePython s.data = false →
      _validate_enable_azure_container_storage_params none storage_pool_type
          none none (some s) false
        = Outcome.argumentUsageError sizeFormatMsg)
    ∧ (matchesSizePython s.data = true →
        (storage_pool_type = CONST_STORAGE_POOL_TYPE_ELASTIC_SAN →
          ((∃ m, _validate_enable_azure_container_storage_params none
                storage_pool_type none none (some s) false
              = Outcome.argumentUsageError m) ↔
            ((takeLastTwo s.data = ['G', 'i']
                ∧ ∃ q, pyFloat? (dropLastTwo s.data) = some q ∧ q < 1024)
             ∨ (takeLastTwo s.data = ['T', 'i']
                ∧ ∃ q, pyFloat? (dropLastTwo s.data) = some q ∧ q < 1))))
        ∧ (storage_pool_type = CONST_STORAGE_POOL_TYPE_EPHEMERAL_DISK →
            _validate_enable_azure_container_storage_params none
                storage_pool_type none none (some s) false
              = Outcome.ok [ephemeralSizeWarning])
        ∧ (storage_pool_type ≠ CONST_STORAGE_POOL_TYPE_ELASTIC_SAN →
            storage_pool_type ≠ CONST_STORAGE_POOL_TYPE_EPHEMERAL_DISK →
            _validate_enable_azure_container_storage_params none
                storage_pool_type none none (some s) false
              = Outcome.ok []))
    ∧ _validate_enable_azure_container_storage_params none
          CONST_STORAGE_POOL_TYPE_ELASTIC_SAN none none (some "500Gi") false
        = Outcome.argumentUsageError sizeElasticSanMinMsg
    ∧ _validate_enable_azure_container_storage_params none
          CONST_STORAGE_POOL_TYPE_ELASTIC_SAN none none (some "1024Gi") false
        = Outcome.ok []
    ∧ _validate_enable_azure_container_storage_params none
          CONST_STORAGE_POOL_TYPE_ELASTIC_SAN none none (some "1Ti") false
        = Outcome.ok [] := by
  refine ⟨?_, ?_, by decide, by decide, by decide⟩
  · intro h
    rw [enable_params_neutral]
    simp [enableSizeCheck, h]
  · intro h
    refine ⟨?_, ?_, ?_⟩
    · intro ht
      subst ht
      rw [enable_params_neutral]
      cases hq : pyFloat? (dropLastTwo s.data) with
      | none => simp [enableSizeCheck, h, hq]
      | some q =>
        by_cases hc : (takeLastTwo s.data = ['G', 'i'] ∧ q < 1024)
            ∨ (takeLastTwo s.data = ['T', 'i'] ∧ q < 1)
        · simp [enableSizeCheck, h, hq, hc]
        · have hr : enableSizeCheck CONST_STORAGE_POOL_TYPE_ELASTIC_SAN (some s)
              = Outcome.ok [] := by
            simp [enableSizeCheck, h, hq, hc]
          rw [hr]
          simp [hq]
          push_neg at hc
          exact hc
    · intro ht
      subst ht
      rw [enable_params_neutral]
      simp [enableSizeCheck, h, CONST_STORAGE_POOL_TYPE_EPHEMERAL_DISK,
        CONST_STORAGE_POOL_TYPE_ELASTIC_SAN]
    · intro h1 h2
      rw [enable_params_neutral]
      simp [enableSizeCheck, h, h1, h2]

/-- Witness for C1 at pool type `azureDisk` and size `500Gi`. -/
theorem claim1_enable_size_rules_witness :
    _validate_enable_azure_container_storage_params none
        CONST_STORAGE_POOL_TYPE_AZURE_DISK none none (some "500Gi") false
      = Outcome.ok [] :=
  ((claim1_enable_size_rules CONST_STORAGE_POOL_TYPE_AZURE_DISK "500Gi").2.1
    (by decide)).2.2 (by decide) (by decide)

/-- Claim C2: the node-pool list string must fully match
`^[a-z][a-z0-9]*(?:,[a-z][a-z0-9]*)*$` or `InvalidArgumentValueError`
is raised; when it matches it is split on commas, and the first
resulting name missing from the agent-pool collection (found by
`find?`, so without aggregation) triggers `InvalidArgumentValueError`
whose message lists the comma-joined agent-pool names when more than
one agent pool exists and the single agent-pool name when exactly one
exists; when every name is a member, validation succeeds. -/
theorem claim2_nodepool_name_rules (s : String) (agentpool_details : List String) :
    (matchesNodepoolPattern s = false →
      _validate_nodepool_names (some s) agentpool_details
        = Outcome.invalidArgumentValueError nodepoolFormatMsg)
    ∧ (matchesNodepoolPattern s = true →
        ((nodepoolStrings s).find? (fun p => !agentpool_details.contains p) = none →
          _validate_nodepool_names (some s) agentpool_details = Outcome.ok [])
        ∧ (∀ missing,
            (nodepoolStrings s).find? (fun p => !agentpool_details.contains p)
              = some missing →
            (1 < agentpool_details.length →
              _validate_nodepool_names (some s) agentpool_details
                = Outcome.invalidArgumentValueError
                    (nodepoolNotFoundManyMsg missing agentpool_details))
            ∧ (∀ a, agentpool_details = [a] →
              _validate_nodepool_names (some s) agentpool_details
                = Outcome.invalidArgumentValueError
                    (nodepoolNotFoundOneMsg missing a)))) := by
  constructor
  · intro h
    simp [_validate_nodepool_names, h]
  · intro h
    constructor
    · intro hf
      simp only [_validate_nodepool_names, h, if_true]
      rw [hf]
    · intro missing hf
      constructor
      · intro hlen
        simp only [_validate_nodepool_names, h, if_true]
        rw [hf]
        simp [hlen]
      · intro a ha
        subst ha
        simp only [_validate_nodepool_names, h, if_true]
        rw [hf]
        simp

/-- Witness for C2: requesting `pool1,pool2` when only `pool1` exists
fails on `pool2` with the singular message. -/
theorem claim2_nodepool_name_rules_witness :
    _validate_nodepool_names (some "pool1,pool2") ["pool1"]
      = Outcome.invalidArgumentValueError (nodepoolNotFoundOneMsg "pool2" "pool1") :=
  (((claim2_nodepool_name_rules "pool1,pool2" ["pool1"]).2 (by decide)).2
    "pool2" (by decide)).2 "pool1" rfl

/-- Claim C3: on the enable path, a storage pool option equal to the
SSD constant raises `ArgumentUsageError` regardless of the pool type:
for a type other than `ephemeralDisk` any set option raises
`ArgumentUsageError`, and for `ephemeralDisk` the SSD option raises
`ArgumentUsageError`. -/
theorem claim3_option_ssd_rules (storage_pool_type : String)
    (storage_pool_size : Option String) :
    (∀ o : String, storage_pool_type ≠ CONST_STORAGE_POOL_TYPE_EPHEMERAL_DISK →
      _validate_enable_azure_container_storage_params none storage_pool_type
          none (some o) storage_pool_size false
        = Outcome.argumentUsageError optionNotEphemeralMsg)
    ∧ (storage_pool_type = CONST_STORAGE_POOL_TYPE_EPHEMERAL_DISK →
      _validate_enable_azure_container_storage_params none storage_pool_type
          none (some CONST_STORAGE_POOL_OPTION_SSD) storage_pool_size false
        = Outcome.argumentUsageError optionSsdMsg)
    ∧ (∃ m, _validate_enable_azure_container_storage_params none storage_pool_type
          none (some CONST_STORAGE_POOL_OPTION_SSD) storage_pool_size false
        = Outcome.argumentUsageError m) := by
  refine ⟨?_, ?_, ?_⟩
  · intro o ht
    simp [_validate_enable_azure_container_storage_params, enableSkuCheck,
      enableOptionCheck, ht]
  · intro ht
    subst ht
    simp [_validate_enable_azure_container_storage_params, enableSkuCheck,
      enableOptionCheck]
  · by_cases ht : storage_pool_type = CONST_STORAGE_POOL_TYPE_EPHEMERAL_DISK
    · subst ht
      exact ⟨optionSsdMsg, by
        simp [_validate_enable_azure_container_storage_params, enableSkuCheck,
          enableOptionCheck]⟩
    · exact ⟨optionNotEphemeralMsg, by
        simp [_validate_enable_azure_container_storage_params, enableSkuCheck,
          enableOptionCheck, ht]⟩

/-- Witness for C3: option `SSD` with pool type `azureDisk`. -/
theorem claim3_option_ssd_rules_witness :
    _validate_enable_azure_container_storage_params none
        CONST_STORAGE_POOL_TYPE_AZURE_DISK none
        (some CONST_STORAGE_POOL_OPTION_SSD) none false
      = Outcome.argumentUsageError optionNotEphemeralMsg :=
  (claim3_option_ssd_rules CONST_STORAGE_POOL_TYPE_AZURE_DISK none).1
    CONST_STORAGE_POOL_OPTION_SSD (by decide)

/-- Claim C4: on the enable path with a non-`None` sku, pool type
`ephemeralDisk` raises `ArgumentUsageError`; pool type `elasticSan`
with a sku outside the supported set raises `ArgumentUsageError` whose
message lists `Premium_LRS, Premium_ZRS`; any other pool type accepts
every sku. -/
theorem claim4_sku_rules :
    (∀ k : String,
      _validate_enable_azure_container_storage_params none
          CONST_STORAGE_POOL_TYPE_EPHEMERAL_DISK (some k) none none false
        = Outcome.argumentUsageError skuEphemeralMsg)
    ∧ (∀ k : String, ¬ elastic_san_supported_skus.contains k →
      _validate_enable_azure_container_storage_params none
          CONST_STORAGE_POOL_TYPE_ELASTIC_SAN (some k) none none false
        = Outcome.argumentUsageError skuElasticSanMsg)
    ∧ (∀ t k : String, t ≠ CONST_STORAGE_POOL_TYPE_EPHEMERAL_DISK →
        t ≠ CONST_STORAGE_POOL_TYPE_ELASTIC_SAN →
      _validate_enable_azure_container_storage_params none t (some k) none none false
        = Outcome.ok [])
    ∧ skuElasticSanMsg
        = "Invalid --storage-pool-sku value. Supported value for --storage-pool-sku are Premium_LRS, Premium_ZRS when --enable-azure-container-storage is set to elasticSan." := by
  refine ⟨?_, ?_, ?_, by decide⟩
  · intro k
    simp [_validate_enable_azure_container_storage_params, enableSkuCheck]
  · intro k hk
    simp at hk
    simp [_validate_enable_azure_container_storage_params, enableSkuCheck, hk,
      CONST_STORAGE_POOL_TYPE_ELASTIC_SAN, CONST_STORAGE_POOL_TYPE_EPHEMERAL_DISK]
  · intro t k h1 h2
    simp [_validate_enable_azure_container_storage_params, enableSkuCheck,
      enableOptionCheck, enableSizeCheck, h1, h2]

/-- Witness for C4: sku `Standard_LRS` with pool type `elasticSan`. -/
theorem claim4_sku_rules_witness :
    _validate_enable_azure_container_storage_params none
        CONST_STORAGE_POOL_TYPE_ELASTIC_SAN (some "Standard_LRS") none none false
      = Outcome.argumentUsageError skuElasticSanMsg :=
  claim4_sku_rules.2.1 "Standard_LRS" (by decide)

/-- Claim C5: on the disable path, a missing extension raises
`InvalidArgumentValueError`; with the extension installed, validation
succeeds exactly when all five of name, sku, size, option and node-pool
list are `None`, and otherwise the first set flag in the fixed order
name, sku, size, option, node-pool list yields a
`MutuallyExclusiveArgumentError` naming that flag. -/
theorem claim5_disable_rules
    (storage_pool_name storage_pool_sku storage_pool_option storage_pool_size
      nodepool_list : Option String) :
    (_validate_disable_azure_container_storage_params storage_pool_name
        storage_pool_sku storage_pool_option storage_pool_size nodepool_list false
      = Outcome.invalidArgumentValueError disableNotInstalledMsg)
    ∧ (_validate_disable_azure_container_storage_params storage_pool_name
          storage_pool_sku storage_pool_option storage_pool_size nodepool_list true
        = Outcome.ok []
      ↔ storage_pool_name = none ∧ storage_pool_sku = none
          ∧ storage_pool_size = none ∧ storage_pool_option = none
          ∧ nodepool_list = none)
    ∧ (∀ v, storage_pool_name = some v →
      _validate_disable_azure_container_storage_params storage_pool_name
          storage_pool_sku storage_pool_option storage_pool_size nodepool_list true
        = Outcome.mutuallyExclusiveArgumentError (disableConflictMsg "--storage-pool-name"))
    ∧ (∀ v, storage_pool_name = none → storage_pool_sku = some v →
      _validate_disable_azure_container_storage_params storage_pool_name
          storage_pool_sku storage_pool_option storage_pool_size nodepool_list true
        = Outcome.mutuallyExclusiveArgumentError (disableConflictMsg "--storage-pool-sku"))
    ∧ (∀ v, storage_pool_name = none → storage_pool_sku = none →
        storage_pool_size = some v →
      _validate_disable_azure_container_storage_params storage_pool_name
          storage_pool_sku storage_pool_option storage_pool_size nodepool_list true
        = Outcome.mutuallyExclusiveArgumentError (disableConflictMsg "--storage-pool-size"))
    ∧ (∀ v, storage_pool_name = none → storage_pool_sku = none →
        storage_pool_size = none → storage_pool_option = some v →
      _validate_disable_azure_container_storage_params storage_pool_name
          storage_pool_sku storage_pool_option storage_pool_size nodepool_list true
        = Outcome.mutuallyExclusiveArgumentError (disableConflictMsg "--storage-pool-option"))
    ∧ (∀ v, storage_pool_name = none → storage_pool_sku = none →
        storage_pool_size = none → storage_pool_option = none →
        nodepool_list = some v →
      _validate_disable_azure_container_storage_params storage_pool_name
          storage_pool_sku storage_pool_option storage_pool_size nodepool_list true
        = Outcome.mutuallyExclusiveArgumentError
            (disableConflictMsg "--azure-container-storage-nodepools")) := by
  rcases storage_pool_name with _ | n <;> rcases storage_pool_sku with _ | k <;>
    rcases storage_pool_option with _ | o <;> rcases storage_pool_size with _ | z <;>
    rcases nodepool_list with _ | np <;>
    simp [_validate_disable_azure_container_storage_params]

/-- Witness for C5: with the extension installed, a set size flag is
reported even when the option and node-pool flags are also set. -/
theorem claim5_disable_rules_witness :
    _validate_disable_azure_container_storage_params none none (some "NVMe")
        (some "5Ti") (some "np1") true
      = Outcome.mutuallyExclusiveArgumentError (disableConflictMsg "--storage-pool-size") :=
  (claim5_disable_rules none none (some "NVMe") (some "5Ti") (some "np1")).2.2.2.2.1
    "5Ti" rfl rfl rfl

/-- Claim C6: on the enable path with a non-`None` storage pool name,
the name must fully match
`[a-z0-9]([-a-z0-9]*[a-z0-9])?(\.[a-z0-9]([-a-z0-9]*[a-z0-9])?)*`
or `InvalidArgumentValueError` is raised; `my-pool.1` passes while
`-bad` and `BAD` raise `InvalidArgumentValueError`. -/
theorem claim6_pool_name_rules (storage_pool_type n : String) :
    (matchesPoolNamePattern n = false →
      _validate_enable_azure_container_storage_params (some n) storage_pool_type
          none none none false
        = Outcome.invalidArgumentValueError poolNameInvalidMsg)
    ∧ (matchesPoolNamePattern n = true →
      _validate_enable_azure_container_storage_params (some n) storage_pool_type
          none none none false
        = Outcome.ok [])
    ∧ matchesPoolNamePattern "my-pool.1" = true
    ∧ _validate_enable_azure_container_storage_params (some "my-pool.1")
        storage_pool_type none none none false = Outcome.ok []
    ∧ _validate_enable_azure_container_storage_params (some "-bad")
        storage_pool_type none none none false
        = Outcome.invalidArgumentValueError poolNameInvalidMsg
    ∧ _validate_enable_azure_container_storage_params (some "BAD")
        storage_pool_type none none none false
        = Outcome.invalidArgumentValueError poolNameInvalidMsg := by
  have hbad : ∀ m : String, matchesPoolNamePattern m = false →
      _validate_enable_azure_container_storage_params (some m) storage_pool_type
        none none none false = Outcome.invalidArgumentValueError poolNameInvalidMsg := by
    intro m hm
    simp [_validate_enable_azure_container_storage_params, hm]
  have hok : ∀ m : String, matchesPoolNamePattern m = true →
      _validate_enable_azure_container_storage_params (some m) storage_pool_type
        none none none false = Outcome.ok [] := by
    intro m hm
    simp [_validate_enable_azure_container_storage_params, hm, enableSkuCheck,
      enableOptionCheck, enableSizeCheck]
  exact ⟨hbad n, hok n, by decide, hok "my-pool.1" (by decide),
    hbad "-bad" (by decide), hbad "BAD" (by decide)⟩

/-- Witness for C6 at pool type `azureDisk` and name `mypool`. -/
theorem claim6_pool_name_rules_witness :
    _validate_enable_azure_container_storage_params (some "mypool")
        CONST_STORAGE_POOL_TYPE_AZURE_DISK none none none false = Outcome.ok [] :=
  (claim6_pool_name_rules CONST_STORAGE_POOL_TYPE_AZURE_DISK "mypool").2.1 (by decide)

/-- Claim C7: whenever the enable flag and the disable flag are both
set, the top-level entry point raises `MutuallyExclusiveArgumentError`,
regardless of every other field. -/
theorem claim7_enable_disable_conflict
    (storage_pool_name : Option String) (storage_pool_type : String)
    (storage_pool_sku storage_pool_option storage_pool_size
      nodepool_list : Option String)
    (agentpool_names : List String) (is_extension_installed : Bool) :
    validate_azure_container_storage_params true true storage_pool_name
        storage_pool_type storage_pool_sku storage_pool_option storage_pool_size
        nodepool_list agentpool_names is_extension_installed
      = Outcome.mutuallyExclusiveArgumentError enableDisableConflictMsg := rfl

/-- Claim C8: whenever the enable flag is set, the disable flag is not,
and the extension is already installed, the top-level entry point
raises `InvalidArgumentValueError` regardless of every other field. -/
theorem claim8_enable_already_installed
    (storage_pool_name : Option String) (storage_pool_type : String)
    (storage_pool_sku storage_pool_option storage_pool_size
      nodepool_list : Option String)
    (agentpool_names : List String) :
    validate_azure_container_storage_params true false storage_pool_name
        storage_pool_type storage_pool_sku storage_pool_option storage_pool_size
        nodepool_list agentpool_names true
      = Outcome.invalidArgumentValueError enableAlreadyInstalledMsg := rfl

/-- Claim C9: when the enable flag is set and every enable-path check
passes, node-pool-name validation is always invoked: a node-pool list
equal to the empty string raises `InvalidArgumentValueError` (the
pattern requires at least one character), and a `None` node-pool list
neither returns normally nor raises one of the three typed errors —
`re.fullmatch` applied to `None` raises a `TypeError`, so the validator
is total only when the node-pool list is a string. -/
theorem claim9_nodepool_check_always_runs
    (storage_pool_name : Option String) (storage_pool_type : String)
    (storage_pool_sku storage_pool_option storage_pool_size : Option String)
    (agentpool_names : List String) (ws : List String)
    (h : _validate_enable_azure_container_storage_params storage_pool_name
          storage_pool_type storage_pool_sku storage_pool_option storage_pool_size
          false = Outcome.ok ws) :
    (validate_azure_container_storage_params true false storage_pool_name
        storage_pool_type storage_pool_sku storage_pool_option storage_pool_size
        none agentpool_names false
      = Outcome.pyTypeError
    ∧ (∀ w, validate_azure_container_storage_params true false storage_pool_name
        storage_pool_type storage_pool_sku storage_pool_option storage_pool_size
        none agentpool_names false ≠ Outcome.ok w)
    ∧ (∀ m, validate_azure_container_storage_params true false storage_pool_name
        storage_pool_type storage_pool_sku storage_pool_option storage_pool_size
        none agentpool_names false ≠ Outcome.mutuallyExclusiveArgumentError m)
    ∧ (∀ m, validate_azure_container_storage_params true false storage_pool_name
        storage_pool_type storage_pool_sku storage_pool_option storage_pool_size
        none agentpool_names false ≠ Outcome.invalidArgumentValueError m)
    ∧ (∀ m, validate_azure_container_storage_params true false storage_pool_name
        storage_pool_type storage_pool_sku storage_pool_option storage_pool_size
        none agentpool_names false ≠ Outcome.argumentUsageError m))
    ∧ validate_azure_container_storage_params true false storage_pool_name
        storage_pool_type storage_pool_sku storage_pool_option storage_pool_size
        (some "") agentpool_names false
      = Outcome.invalidArgumentValueError nodepoolFormatMsg := by
  have hempty : matchesNodepoolPattern "" = false := by decide
  have h1 : validate_azure_container_storage_params true false storage_pool_name
      storage_pool_type storage_pool_sku storage_pool_option storage_pool_size
      none agentpool_names false = Outcome.pyTypeError := by
    simp [validate_azure_container_storage_params, h, _validate_nodepool_names]
  refine ⟨⟨h1, ?_, ?_, ?_, ?_⟩, ?_⟩
  · intro w; rw [h1]; simp
  · intro m; rw [h1]; simp
  · intro m; rw [h1]; simp
  · intro m; rw [h1]; simp
  · simp [validate_azure_container_storage_params, h, _validate_nodepool_names, hempty]

/-- Witness for C9 with no optional argument supplied and no agent
pools. -/
theorem claim9_nodepool_check_always_runs_witness :
    validate_azure_container_storage_params true false none
        CONST_STORAGE_POOL_TYPE_AZURE_DISK none none none none [] false
      = Outcome.pyTypeError :=
  ((claim9_nodepool_check_always_runs none CONST_STORAGE_POOL_TYPE_AZURE_DISK
    none none none [] [] (by decide)).1).1

/-- Claim C10: the membership `InvalidArgumentValueError` of node-pool
validation requires a non-empty agent-pool collection: with an empty
collection, any well-formed node-pool list reaches the subscript
`agentpool_details[0]` and ends in an untyped `IndexError`, never in
`InvalidArgumentValueError`. -/
theorem claim10_empty_agentpool_index_error (s : String)
    (h : matchesNodepoolPattern s = true) :
    _validate_nodepool_names (some s) [] = Outcome.pyIndexError
    ∧ ∀ m, _validate_nodepool_names (some s) [] ≠ Outcome.invalidArgumentValueError m := by
  have hne : nodepoolStrings s ≠ [] := by
    unfold nodepoolStrings
    intro hc
    exact splitSep_ne_nil ',' s.data (List.map_eq_nil_iff.mp hc)
  rcases hx : nodepoolStrings s with _ | ⟨p, ps⟩
  · exact absurd hx hne
  · have hfind : (nodepoolStrings s).find?
        (fun nodepool => !([] : List String).contains nodepool) = some p := by
      rw [hx]
      exact List.find?_cons_of_pos _ rfl
    have hres : _validate_nodepool_names (some s) [] = Outcome.pyIndexError := by
      simp only [_validate_nodepool_names, h, if_true]
      rw [hfind]
      simp
    exact ⟨hres, by intro m; rw [hres]; simp⟩

/-- Witness for C10 at the well-formed node-pool list `nodepool1`. -/
theorem claim10_empty_agentpool_index_error_witness :
    _validate_nodepool_names (some "nodepool1") [] = Outcome.pyIndexError :=
  (claim10_empty_agentpool_index_error "nodepool1" (by decide)).1

end AzureContainerStorage
